import Mathlib

/-!
Shallow embedding of the order-processing demo (an effect-orchestration
engine around pure business calculations).

Conventions of the embedding:
* TypeScript `number` is modelled by `ℚ` (the source's own documentation
  notes that currency/decimal precision is not integrated, so exact
  rational arithmetic is the faithful idealisation of its float usage);
  `Math.floor` is `Int.floor`.
* A `Record<string, Product>` / `Map` is modelled as an association list
  `List (String × Product)` queried with `List.lookup` (first binding wins,
  as in a JS record built left to right).
* `Promise<T | null>` reads are `Option`-returning functions; fallible
  write effects return `Except String Unit` (the `String` is the rejection
  cause); `purify-ts` `Either` is `Except`, `Maybe` is `Option`.
* The coordinator is a function of an explicit effects environment
  (`AppEffects`).  Besides its result it returns the ordered list of
  effect invocations it dispatched (`EffectCall`), which makes "effect X
  was / was not attempted" a statement about the returned trace.  Within
  a `Promise.all` group the trace order is the dispatch (creation) order
  of the promises.
-/

-- ===========================================================================
-- Domain model (src/domain.d.ts)
-- ===========================================================================

/-- Customer tier enumeration `'standard' | 'premium' | 'vip'`. -/
inductive CustomerTier where
  | standard
  | premium
  | vip
deriving DecidableEq, Repr

/-- One line request of an order (`OrderItem`). -/
structure OrderItem where
  productId : String
  quantity : ℚ
  pricePerUnit : ℚ
deriving DecidableEq, Repr

/-- An order (`Order`).  `createdAt : Date` is abstracted as an opaque
string timestamp; nothing in the processing pipeline reads it. -/
structure Order where
  id : String
  customerId : String
  items : List OrderItem
  createdAt : String
deriving DecidableEq, Repr

/-- A customer (`Customer`). -/
structure Customer where
  id : String
  email : String
  tier : CustomerTier
  totalPurchases : ℚ
deriving DecidableEq, Repr

/-- A product (`Product`). -/
structure Product where
  id : String
  name : String
  stock : ℚ
  category : String
deriving DecidableEq, Repr

/-- A discount rule (`DiscountRule`). -/
structure DiscountRule where
  tier : CustomerTier
  minPurchase : ℚ
  discountPercent : ℚ
deriving DecidableEq, Repr

/-- Per-line computed summary (`LineItem`, src/pure/types.d.ts). -/
structure LineItem where
  productId : String
  productName : String
  quantity : ℚ
  pricePerUnit : ℚ
  lineTotal : ℚ
deriving DecidableEq, Repr

/-- Per-line summary embedded in the result (`ItemSummary`). -/
structure ItemSummary where
  productId : String
  productName : String
  quantity : ℚ
  lineTotal : ℚ
deriving DecidableEq, Repr

/-- The computation result (`ProcessedOrder`).  Loyalty points are integral
(every branch of the source formula applies `Math.floor` or multiplies
integers), so they are modelled as `ℤ`. -/
structure ProcessedOrder where
  orderId : String
  customerId : String
  subtotal : ℚ
  discount : ℚ
  total : ℚ
  loyaltyPointsEarned : ℤ
  itemsSummary : List ItemSummary
deriving DecidableEq, Repr

/-- Inventory delta (`InventoryUpdate`, src/pure/types.d.ts). -/
structure InventoryUpdate where
  productId : String
  quantityChange : ℚ
deriving DecidableEq, Repr

/-- Analytics event (`AnalyticsEvent`, src/pure/types.d.ts). -/
structure AnalyticsEvent where
  event : String
  orderId : String
  total : ℚ
  customerTier : CustomerTier
deriving DecidableEq, Repr

/-- Missing-product alert (`MissingProductAlert`, src/pure/types.d.ts);
`type` is always the literal `'missing_product'`. -/
structure MissingProductAlert where
  type : String
  productId : String
  orderId : String
deriving DecidableEq, Repr

/-- Email payload (`NotificationPayload`, src/types.d.ts); the source field
`to` is rendered `sendTo` (`to` is reserved in Lean). -/
structure NotificationPayload where
  sendTo : String
  subject : String
  body : String
deriving DecidableEq, Repr

/-- Cache entry (`CacheEntry`, src/types.d.ts). -/
structure CacheEntry where
  key : String
  value : String
  ttlSeconds : ℕ
deriving DecidableEq, Repr

-- ===========================================================================
-- Pure business logic (src/pure/businessLogic.ts)
-- ===========================================================================

/-- The line item built for an order line whose product was found:
`lineTotal = quantity * pricePerUnit`. -/
def lineItemOf (orderItem : OrderItem) (product : Product) : LineItem :=
  { productId := orderItem.productId
    productName := product.name
    quantity := orderItem.quantity
    pricePerUnit := orderItem.pricePerUnit
    lineTotal := orderItem.quantity * orderItem.pricePerUnit }

/-- The loop body of `calculateLineItems`: threading the accumulated
`(items, missingProductIds)` pair through `order.items`, a line whose
product id is absent from the record is appended to the missing ids, and
a present product yields one line item. -/
def lineItemsStep (products : List (String × Product))
    (acc : List LineItem × List String) (orderItem : OrderItem) :
    List LineItem × List String :=
  match products.lookup orderItem.productId with
  | none => (acc.1, acc.2 ++ [orderItem.productId])
  | some product => (acc.1 ++ [lineItemOf orderItem product], acc.2)

/-- Accumulation underlying `calculateLineItems` (the `for` loop over
`order.items` with its two growing arrays). -/
def calculateLineItemsCore (order : Order) (products : List (String × Product)) :
    List LineItem × List String :=
  order.items.foldl (lineItemsStep products) ([], [])

/-- `calculateLineItems`: returns the line items together with
`Maybe.fromPredicate(a => a.length > 0, missingProductIds)`. -/
def calculateLineItems (order : Order) (products : List (String × Product)) :
    List LineItem × Option (List String) :=
  let r := calculateLineItemsCore order products
  (r.1, if r.2.length > 0 then some r.2 else none)

/-- `calculateSubtotal`: `lineItems.reduce((sum, item) => sum + item.lineTotal, 0)`. -/
def calculateSubtotal (lineItems : List LineItem) : ℚ :=
  lineItems.foldl (fun sum item => sum + item.lineTotal) 0

/-- `findApplicableDiscount`: filter the rules to the customer's tier, then
take the first rule whose `minPurchase` is at most the subtotal
(`rules.filter(tier match).find(subtotal >= minPurchase) ?? null`). -/
def findApplicableDiscount (rules : List DiscountRule)
    (customerTier : CustomerTier) (subtotal : ℚ) : Option DiscountRule :=
  (rules.filter (fun rule => decide (rule.tier = customerTier))).find?
    (fun rule => decide (subtotal ≥ rule.minPurchase))

/-- `calculateDiscount`: `0` without a rule, otherwise
`subtotal * (rule.discountPercent / 100)`. -/
def calculateDiscount (subtotal : ℚ) (rule : Option DiscountRule) : ℚ :=
  match rule with
  | none => 0
  | some rule => subtotal * (rule.discountPercent / 100)

/-- `calculateLoyaltyPoints`: `basePoints = Math.floor(total / 10)`;
`vip → basePoints * 2`, `premium → Math.floor(basePoints * 1.5)`,
`standard → basePoints`. -/
def calculateLoyaltyPoints (total : ℚ) (customerTier : CustomerTier) : ℤ :=
  let basePoints : ℤ := Int.floor (total / 10)
  match customerTier with
  | CustomerTier.vip => basePoints * 2
  | CustomerTier.premium => Int.floor ((basePoints : ℚ) * 1.5)
  | CustomerTier.standard => basePoints

/-- `toItemsSummary`: project each line item to its summary fields. -/
def toItemsSummary (lineItems : List LineItem) : List ItemSummary :=
  lineItems.map (fun item =>
    { productId := item.productId
      productName := item.productName
      quantity := item.quantity
      lineTotal := item.lineTotal })

/-- `toProcessedOrder`: assemble the computation result;
`total = subtotal - discount`. -/
def toProcessedOrder (order : Order) (customer : Customer)
    (lineItems : List LineItem) (discountRule : Option DiscountRule) :
    ProcessedOrder :=
  let subtotal := calculateSubtotal lineItems
  let discount := calculateDiscount subtotal discountRule
  let total := subtotal - discount
  let loyaltyPointsEarned := calculateLoyaltyPoints total customer.tier
  { orderId := order.id
    customerId := customer.id
    subtotal := subtotal
    discount := discount
    total := total
    loyaltyPointsEarned := loyaltyPointsEarned
    itemsSummary := toItemsSummary lineItems }

/-- `calculateInventoryUpdates`: one delta of `-quantity` per line item. -/
def calculateInventoryUpdates (lineItems : List LineItem) : List InventoryUpdate :=
  lineItems.map (fun item =>
    { productId := item.productId, quantityChange := -item.quantity })

/-- Canonical rendering of an item summary, a component of the cache
value below. -/
def stringifyItemSummary (s : ItemSummary) : String :=
  "(" ++ s.productId ++ "," ++ s.productName ++ "," ++ toString s.quantity
    ++ "," ++ toString s.lineTotal ++ ")"

/-- Canonical rendering of a processed order.  This stands for
`JSON.stringify(processed)`: the exact JSON surface syntax is abstracted
by a canonical field-by-field rendering. -/
def stringifyProcessedOrder (p : ProcessedOrder) : String :=
  "(" ++ p.orderId ++ "," ++ p.customerId ++ "," ++ toString p.subtotal
    ++ "," ++ toString p.discount ++ "," ++ toString p.total
    ++ "," ++ toString p.loyaltyPointsEarned ++ ",["
    ++ String.intercalate "," (p.itemsSummary.map stringifyItemSummary) ++ "])"

/-- The confirmation email body.  The source interpolates the subtotal,
discount, total and earned points into a fixed template with `toFixed(2)`;
the two-decimal float rendering is abstracted by the canonical rational
rendering. -/
def confirmationBody (processed : ProcessedOrder) : String :=
  "Thank you for your order!\n\nSubtotal: $" ++ toString processed.subtotal
    ++ "\nDiscount: -$" ++ toString processed.discount
    ++ "\nTotal: $" ++ toString processed.total
    ++ "\n\nYou earned " ++ toString processed.loyaltyPointsEarned
    ++ " loyalty points!"

/-- `buildConfirmationEmail`: addressed to the customer, subject naming the
order id. -/
def buildConfirmationEmail (customer : Customer) (processed : ProcessedOrder) :
    NotificationPayload :=
  { sendTo := customer.email
    subject := "Order " ++ processed.orderId ++ " Confirmed"
    body := confirmationBody processed }

/-- `buildCacheEntry`: key `processed-order:<orderId>`, serialised value,
ttl 3600 seconds. -/
def buildCacheEntry (processed : ProcessedOrder) : CacheEntry :=
  { key := "processed-order:" ++ processed.orderId
    value := stringifyProcessedOrder processed
    ttlSeconds := 3600 }

/-- `buildAnalyticsEvent`: the `order_processed` event. -/
def buildAnalyticsEvent (processed : ProcessedOrder)
    (customerTier : CustomerTier) : AnalyticsEvent :=
  { event := "order_processed"
    orderId := processed.orderId
    total := processed.total
    customerTier := customerTier }

/-- `buildMissingProductAlerts`: one `missing_product` alert per missing id. -/
def buildMissingProductAlerts (orderId : String)
    (missingProductIds : List String) : List MissingProductAlert :=
  missingProductIds.map (fun productId =>
    { type := "missing_product", productId := productId, orderId := orderId })

-- ===========================================================================
-- Effects layer (src/after/effects.ts)
-- ===========================================================================

/-- `OrderRepository`: read an order by id (`null` becomes `none`). -/
structure OrderRepository where
  getById : String → Option Order

/-- `CustomerRepository`: read a customer by id and update the cumulative
purchase total. -/
structure CustomerRepository where
  getById : String → Option Customer
  updateTotalPurchases : String → ℚ → Except String Unit

/-- `ProductRepository`: read products by a set of ids (absent ids are
simply missing from the returned record) and apply inventory deltas. -/
structure ProductRepository where
  getByIds : List String → List (String × Product)
  updateInventory : List InventoryUpdate → Except String Unit

/-- `PricingService`: fetch the ordered discount-rule list. -/
structure PricingService where
  getDiscountRules : List DiscountRule

/-- `CacheService`: write one cache entry. -/
structure CacheService where
  set : CacheEntry → Except String Unit

/-- `NotificationService`: send one email. -/
structure NotificationService where
  sendEmail : NotificationPayload → Except String Unit

/-- `MonitoringService`: send a batch of missing-product alerts. -/
structure MonitoringService where
  sendAlerts : List MissingProductAlert → Except String Unit

/-- `AnalyticsService`: record one analytics event. -/
structure AnalyticsService where
  trackEvent : AnalyticsEvent → Except String Unit

/-- `AppEffects`: the aggregate of all capability interfaces handed to the
coordinator.  Each reader/writer is a (deterministic) function of its
arguments, which models one fixed behaviour of the external collaborators
for the duration of a run. -/
structure AppEffects where
  orders : OrderRepository
  customers : CustomerRepository
  products : ProductRepository
  pricing : PricingService
  cache : CacheService
  notifications : NotificationService
  monitoring : MonitoringService
  analytics : AnalyticsService

/-- One dispatched effect invocation, with the argument it was given.
The coordinator returns the ordered list of these alongside its result. -/
inductive EffectCall where
  | getOrder (orderId : String)
  | getCustomer (customerId : String)
  | getProducts (productIds : List String)
  | getDiscountRules
  | updateInventory (updates : List InventoryUpdate)
  | updateTotalPurchases (customerId : String) (amount : ℚ)
  | cacheSet (entry : CacheEntry)
  | sendEmail (payload : NotificationPayload)
  | trackEvent (event : AnalyticsEvent)
  | sendAlerts (alerts : List MissingProductAlert)
deriving DecidableEq, Repr

/-- The optional effects of the classifier: cache write, email,
analytics event, missing-product alerting.  Reads and the two critical
writes (inventory, customer purchase total) are not optional. -/
def EffectCall.isOptional : EffectCall → Bool
  | EffectCall.cacheSet _ => true
  | EffectCall.sendEmail _ => true
  | EffectCall.trackEvent _ => true
  | EffectCall.sendAlerts _ => true
  | _ => false

-- ===========================================================================
-- The coordinator (src/after/orderProcessor.ts)
-- ===========================================================================

namespace After

/-- The product-id list passed to `products.getByIds`
(`order.items.map(item => item.productId)`). -/
def productIdsOf (order : Order) : List String :=
  order.items.map OrderItem.productId

/-- The product record fetched for an order. -/
def fetchedProducts (env : AppEffects) (order : Order) : List (String × Product) :=
  env.products.getByIds (productIdsOf order)

/-- The line-item stage of the coordinator.  The `after` flavour of
`calculateLineItems` (file `src/after/businessLogic.ts`, not included
under `src/`) is the same computation as the `pure` flavour except that
`missingProductIds` is returned as a plain array rather than a `Maybe`;
this is fixed by its call sites (`missingProductAlerts.length > 0`) and
the integration tests.  It is therefore modelled by
`calculateLineItemsCore`. -/
def afterLineItems (env : AppEffects) (order : Order) : List LineItem :=
  (calculateLineItemsCore order (fetchedProducts env order)).1

/-- The missing-product ids discovered by the line-item stage. -/
def afterMissingIds (env : AppEffects) (order : Order) : List String :=
  (calculateLineItemsCore order (fetchedProducts env order)).2

/-- The pure computation block of the coordinator: line items, then the
applicable discount rule (looked up at the freshly reduced subtotal), then
`toProcessedOrder`. -/
def computeProcessedOrder (order : Order) (customer : Customer)
    (products : List (String × Product)) (discountRules : List DiscountRule) :
    ProcessedOrder :=
  let lineItems := (calculateLineItemsCore order products).1
  let discountRule := findApplicableDiscount discountRules customer.tier
      (lineItems.foldl (fun sum item => sum + item.lineTotal) 0)
  toProcessedOrder order customer lineItems discountRule

/-- The processed order the coordinator computes for a fetched
order/customer pair under a given environment. -/
def afterProcessedOrder (env : AppEffects) (order : Order) (customer : Customer) :
    ProcessedOrder :=
  computeProcessedOrder order customer (fetchedProducts env order)
    env.pricing.getDiscountRules

/-- The inventory-update list handed to the critical inventory effect. -/
def afterInventoryArg (env : AppEffects) (order : Order) : List InventoryUpdate :=
  calculateInventoryUpdates (afterLineItems env order)

/-- `processOrder` (src/after/orderProcessor.ts): fetch order and customer
(each absence short-circuits with a single not-found cause), fetch products
and discount rules, run the pure computation, dispatch the two critical
effects (both are dispatched via `Promise.all`; the first `Left` among
them — in dispatch order — becomes the returned failure), and only when
both succeeded dispatch the optional effects fire-and-forget, returning
`Right(processedOrder)` regardless of their outcomes.  The second
component is the ordered effect-invocation trace. -/
def processOrder (orderId : String) (env : AppEffects) :
    Except String ProcessedOrder × List EffectCall :=
  match env.orders.getById orderId with
  | none =>
      (Except.error ("Order " ++ orderId ++ " not found"),
       [EffectCall.getOrder orderId])
  | some order =>
    match env.customers.getById order.customerId with
    | none =>
        (Except.error ("Customer " ++ order.customerId ++ " not found"),
         [EffectCall.getOrder orderId, EffectCall.getCustomer order.customerId])
    | some customer =>
      let processedOrder := afterProcessedOrder env order customer
      let inventoryUpdates := afterInventoryArg env order
      let emailPayload := buildConfirmationEmail customer processedOrder
      let cacheEntry := buildCacheEntry processedOrder
      let analyticsEvent := buildAnalyticsEvent processedOrder customer.tier
      let missingProductAlerts :=
        buildMissingProductAlerts orderId (afterMissingIds env order)
      let baseTrace :=
        [EffectCall.getOrder orderId,
         EffectCall.getCustomer order.customerId,
         EffectCall.getProducts (productIdsOf order),
         EffectCall.getDiscountRules,
         EffectCall.updateInventory inventoryUpdates,
         EffectCall.updateTotalPurchases customer.id processedOrder.total]
      match Except.mapError (fun err => "Failed to update inventory: " ++ err)
          (env.products.updateInventory inventoryUpdates) with
      | Except.error e => (Except.error e, baseTrace)
      | Except.ok _ =>
        match Except.mapError
            (fun err => "Failed to update customer purchases: " ++ err)
            (env.customers.updateTotalPurchases customer.id
              processedOrder.total) with
        | Except.error e => (Except.error e, baseTrace)
        | Except.ok _ =>
            (Except.ok processedOrder,
             baseTrace
               ++ [EffectCall.cacheSet cacheEntry,
                   EffectCall.sendEmail emailPayload,
                   EffectCall.trackEvent analyticsEvent]
               ++ if missingProductAlerts.length > 0 then
                    [EffectCall.sendAlerts missingProductAlerts]
                  else [])

/-- The causes carried by a coordinator outcome: `processOrder` reports
failure through a single `Left` cause, so a failed run carries exactly one
cause and a successful run none. -/
def failureCauses (r : Except String ProcessedOrder) : List String :=
  match r with
  | Except.error e => [e]
  | Except.ok _ => []

end After

-- ===========================================================================
-- Spec-side definition for the discount-selection refinement claim
-- ===========================================================================

/-- Specification-side selection rule, written from the spec's words for
the refinement comparison: "Applicable discount rule = first rule in the
fetched rule list whose tier equals the customer's tier AND whose
minimum-purchase threshold is ≤ subtotal" — a single first-match scan of
the whole list, to be compared against the source's filter-then-find
implementation. -/
def specFirstApplicableRule (rules : List DiscountRule)
    (customerTier : CustomerTier) (subtotal : ℚ) : Option DiscountRule :=
  rules.find? (fun rule =>
    decide (rule.tier = customerTier) && decide (rule.minPurchase ≤ subtotal))

-- ===========================================================================
-- Concrete fixtures (mirroring the repository's test data)
-- ===========================================================================

/-- The two-line test order of the integration tests. -/
def testOrder : Order :=
  { id := "order-123"
    customerId := "cust-456"
    items := [{ productId := "prod-1", quantity := 2, pricePerUnit := 25 },
              { productId := "prod-2", quantity := 1, pricePerUnit := 50 }]
    createdAt := "2024-01-15" }

/-- The premium test customer. -/
def testCustomer : Customer :=
  { id := "cust-456"
    email := "test@example.com"
    tier := CustomerTier.premium
    totalPurchases := 500 }

/-- The test product record containing both ordered products. -/
def testProducts : List (String × Product) :=
  [("prod-1", { id := "prod-1", name := "Widget", stock := 100, category := "electronics" }),
   ("prod-2", { id := "prod-2", name := "Gadget", stock := 50, category := "electronics" })]

/-- The single premium discount rule of the tests. -/
def testDiscountRules : List DiscountRule :=
  [{ tier := CustomerTier.premium, minPurchase := 50, discountPercent := 10 }]

/-- An environment in which all reads succeed on the test data, both
critical writes succeed and every optional effect FAILS. -/
def optionalFailEnv : AppEffects :=
  { orders := ⟨fun oid => if oid = "order-123" then some testOrder else none⟩
    customers := ⟨fun cid => if cid = "cust-456" then some testCustomer else none,
                  fun _ _ => Except.ok ()⟩
    products := ⟨fun _ => testProducts, fun _ => Except.ok ()⟩
    pricing := ⟨testDiscountRules⟩
    cache := ⟨fun _ => Except.error "cache unavailable"⟩
    notifications := ⟨fun _ => Except.error "email service down"⟩
    monitoring := ⟨fun _ => Except.error "monitoring down"⟩
    analytics := ⟨fun _ => Except.error "analytics down"⟩ }

/-- An environment in which everything succeeds. -/
def happyEnv : AppEffects :=
  { orders := ⟨fun oid => if oid = "order-123" then some testOrder else none⟩
    customers := ⟨fun cid => if cid = "cust-456" then some testCustomer else none,
                  fun _ _ => Except.ok ()⟩
    products := ⟨fun _ => testProducts, fun _ => Except.ok ()⟩
    pricing := ⟨testDiscountRules⟩
    cache := ⟨fun _ => Except.ok ()⟩
    notifications := ⟨fun _ => Except.ok ()⟩
    monitoring := ⟨fun _ => Except.ok ()⟩
    analytics := ⟨fun _ => Except.ok ()⟩ }

/-- An environment in which both critical effects fail. -/
def bothCriticalFailEnv : AppEffects :=
  { orders := ⟨fun oid => if oid = "order-123" then some testOrder else none⟩
    customers := ⟨fun cid => if cid = "cust-456" then some testCustomer else none,
                  fun _ _ => Except.error "ledger offline"⟩
    products := ⟨fun _ => testProducts, fun _ => Except.error "inventory offline"⟩
    pricing := ⟨testDiscountRules⟩
    cache := ⟨fun _ => Except.ok ()⟩
    notifications := ⟨fun _ => Except.ok ()⟩
    monitoring := ⟨fun _ => Except.ok ()⟩
    analytics := ⟨fun _ => Except.ok ()⟩ }

/-- An environment in which only the critical inventory update fails. -/
def inventoryFailEnv : AppEffects :=
  { orders := ⟨fun oid => if oid = "order-123" then some testOrder else none⟩
    customers := ⟨fun cid => if cid = "cust-456" then some testCustomer else none,
                  fun _ _ => Except.ok ()⟩
    products := ⟨fun _ => testProducts, fun _ => Except.error "inventory offline"⟩
    pricing := ⟨testDiscountRules⟩
    cache := ⟨fun _ => Except.ok ()⟩
    notifications := ⟨fun _ => Except.ok ()⟩
    monitoring := ⟨fun _ => Except.ok ()⟩
    analytics := ⟨fun _ => Except.ok ()⟩ }

/-- An environment in which the order read finds nothing. -/
def orderAbsentEnv : AppEffects :=
  { orders := ⟨fun _ => none⟩
    customers := ⟨fun cid => if cid = "cust-456" then some testCustomer else none,
                  fun _ _ => Except.ok ()⟩
    products := ⟨fun _ => testProducts, fun _ => Except.ok ()⟩
    pricing := ⟨testDiscountRules⟩
    cache := ⟨fun _ => Except.ok ()⟩
    notifications := ⟨fun _ => Except.ok ()⟩
    monitoring := ⟨fun _ => Except.ok ()⟩
    analytics := ⟨fun _ => Except.ok ()⟩ }

/-- An environment in which the order is found but its customer is not. -/
def customerAbsentEnv : AppEffects :=
  { orders := ⟨fun oid => if oid = "order-123" then some testOrder else none⟩
    customers := ⟨fun _ => none, fun _ _ => Except.ok ()⟩
    products := ⟨fun _ => testProducts, fun _ => Except.ok ()⟩
    pricing := ⟨testDiscountRules⟩
    cache := ⟨fun _ => Except.ok ()⟩
    notifications := ⟨fun _ => Except.ok ()⟩
    monitoring := ⟨fun _ => Except.ok ()⟩
    analytics := ⟨fun _ => Except.ok ()⟩ }

/-- An environment whose product read returns an empty record, so every
ordered product is missing; all writes succeed. -/
def emptyProductsEnv : AppEffects :=
  { orders := ⟨fun oid => if oid = "order-123" then some testOrder else none⟩
    customers := ⟨fun cid => if cid = "cust-456" then some testCustomer else none,
                  fun _ _ => Except.ok ()⟩
    products := ⟨fun _ => [], fun _ => Except.ok ()⟩
    pricing := ⟨testDiscountRules⟩
    cache := ⟨fun _ => Except.ok ()⟩
    notifications := ⟨fun _ => Except.ok ()⟩
    monitoring := ⟨fun _ => Except.ok ()⟩
    analytics := ⟨fun _ => Except.ok ()⟩ }

-- ===========================================================================
-- Helper lemmas
-- ===========================================================================

/-- Folding the line-item loop body over any starting accumulator appends
the summaries of the present products and the ids of the absent ones, in
list order. -/
lemma foldl_lineItemsStep (products : List (String × Product))
    (items : List OrderItem) (acc : List LineItem × List String) :
    items.foldl (lineItemsStep products) acc =
      (acc.1 ++ items.filterMap
          (fun oi => (products.lookup oi.productId).map (lineItemOf oi)),
       acc.2 ++ (items.filter
          (fun oi => (products.lookup oi.productId).isNone)).map OrderItem.productId) := by
  induction items generalizing acc with
  | nil => simp
  | cons oi rest ih =>
      cases h : products.lookup oi.productId with
      | none =>
          simp [List.foldl, lineItemsStep, h, ih, List.filterMap_cons, List.filter_cons]
      | some p =>
          simp [List.foldl, lineItemsStep, h, ih, List.filterMap_cons, List.filter_cons]

/-- The two components of `calculateLineItemsCore` in closed form. -/
lemma calculateLineItemsCore_eq (order : Order) (products : List (String × Product)) :
    calculateLineItemsCore order products =
      (order.items.filterMap
          (fun oi => (products.lookup oi.productId).map (lineItemOf oi)),
       (order.items.filter
          (fun oi => (products.lookup oi.productId).isNone)).map OrderItem.productId) := by
  simpa [calculateLineItemsCore] using
    foldl_lineItemsStep products order.items ([], [])

/-- `calculateSubtotal` is the sum of the line totals. -/
lemma calculateSubtotal_eq_sum (lineItems : List LineItem) :
    calculateSubtotal lineItems = (lineItems.map LineItem.lineTotal).sum := by
  have h : ∀ (l : List LineItem) (a : ℚ),
      l.foldl (fun sum item => sum + item.lineTotal) a
        = a + (l.map LineItem.lineTotal).sum := by
    intro l
    induction l with
    | nil => intro a; simp
    | cons x xs ih => intro a; simp [List.foldl, ih, add_assoc]
  simpa [calculateSubtotal] using h lineItems 0

/-- Filtering then finding is a single first-match scan with the conjoined
predicate. -/
lemma find?_filter_eq (l : List DiscountRule) (p q : DiscountRule → Bool) :
    (l.filter p).find? q = l.find? (fun a => p a && q a) := by
  induction l with
  | nil => rfl
  | cons x xs ih =>
      by_cases hp : p x <;> by_cases hq : q x <;>
        simp [List.filter_cons, List.find?, hp, hq, ih]

-- ===========================================================================
-- Claim theorems: pure computation stage
-- ===========================================================================

/-- Claim C6: the applied discount rule is the first rule in list order
whose tier equals the customer's tier and whose minimum-purchase threshold
is at most the subtotal (the source's filter-then-find refines the spec's
single first-match scan), and the discount is `0` without such a rule and
`subtotal * (discountPercent / 100)` with one. -/
theorem findApplicableDiscount_refines_first_match (rules : List DiscountRule)
    (customerTier : CustomerTier) (subtotal : ℚ) :
    findApplicableDiscount rules customerTier subtotal
        = specFirstApplicableRule rules customerTier subtotal
    ∧ calculateDiscount subtotal (findApplicableDiscount rules customerTier subtotal)
        = (specFirstApplicableRule rules customerTier subtotal).elim 0
            (fun rule => subtotal * (rule.discountPercent / 100)) := by
  have h : findApplicableDiscount rules customerTier subtotal
      = specFirstApplicableRule rules customerTier subtotal := by
    rw [findApplicableDiscount, specFirstApplicableRule,
      find?_filter_eq rules (fun rule => decide (rule.tier = customerTier))
        (fun rule => decide (subtotal ≥ rule.minPurchase))]
  refine ⟨h, ?_⟩
  rw [h]
  cases specFirstApplicableRule rules customerTier subtotal <;>
    simp [calculateDiscount]

/-- Claim C7: the computation over the order lines is total by
construction (it is a plain function into line items and missing ids); a
line whose product id is absent is excluded from the summaries and its id
is appended to the missing ids in discovery order, a line whose product is
present yields exactly one summary with `lineTotal = quantity * price`,
and the subtotal is the sum of the included line totals (`0` when no
products match). -/
theorem calculateLineItems_characterisation (order : Order)
    (products : List (String × Product)) :
    (calculateLineItems order products).1
        = order.items.filterMap
            (fun oi => (products.lookup oi.productId).map (lineItemOf oi))
    ∧ (calculateLineItems order products).2
        = (if ((order.items.filter
              (fun oi => (products.lookup oi.productId).isNone)).map
                OrderItem.productId).length > 0
           then some ((order.items.filter
              (fun oi => (products.lookup oi.productId).isNone)).map
                OrderItem.productId)
           else none)
    ∧ (∀ oi p, (lineItemOf oi p).lineTotal = oi.quantity * oi.pricePerUnit)
    ∧ calculateSubtotal ((calculateLineItems order products).1)
        = (((calculateLineItems order products).1).map LineItem.lineTotal).sum
    ∧ calculateSubtotal [] = 0 := by
  have hcore := calculateLineItemsCore_eq order products
  refine ⟨?_, ?_, fun oi p => rfl, calculateSubtotal_eq_sum _, rfl⟩
  · rw [calculateLineItems, hcore]
  · rw [calculateLineItems, hcore]

/-- Claim C8: for a nonnegative total, loyalty points are monotone in the
tier: standard yields `⌊total/10⌋` base points, premium `⌊base * 1.5⌋`,
vip `base * 2`, and standard ≤ premium ≤ vip. -/
theorem calculateLoyaltyPoints_tier_monotone (total : ℚ) (h : 0 ≤ total) :
    calculateLoyaltyPoints total CustomerTier.standard = Int.floor (total / 10)
    ∧ calculateLoyaltyPoints total CustomerTier.premium
        = Int.floor ((Int.floor (total / 10) : ℚ) * 1.5)
    ∧ calculateLoyaltyPoints total CustomerTier.vip = Int.floor (total / 10) * 2
    ∧ calculateLoyaltyPoints total CustomerTier.standard
        ≤ calculateLoyaltyPoints total CustomerTier.premium
    ∧ calculateLoyaltyPoints total CustomerTier.premium
        ≤ calculateLoyaltyPoints total CustomerTier.vip := by
  have hb : (0 : ℤ) ≤ Int.floor (total / 10) :=
    Int.le_floor.mpr (by push_cast; positivity)
  have hbq : (0 : ℚ) ≤ (Int.floor (total / 10) : ℚ) := by exact_mod_cast hb
  refine ⟨rfl, rfl, rfl, ?_, ?_⟩
  · show Int.floor (total / 10)
        ≤ Int.floor ((Int.floor (total / 10) : ℚ) * 1.5)
    exact Int.le_floor.mpr (by nlinarith)
  · show Int.floor ((Int.floor (total / 10) : ℚ) * 1.5)
        ≤ Int.floor (total / 10) * 2
    calc Int.floor ((Int.floor (total / 10) : ℚ) * 1.5)
        ≤ Int.floor ((Int.floor (total / 10) * 2 : ℤ) : ℚ) := by
          apply Int.floor_le_floor
          push_cast
          nlinarith
      _ = Int.floor (total / 10) * 2 := Int.floor_intCast _

/-- Witness for claim C8 at the concrete total 90: points are 9 ≤ 13 ≤ 18. -/
theorem calculateLoyaltyPoints_tier_monotone_witness :
    calculateLoyaltyPoints 90 CustomerTier.standard
      ≤ calculateLoyaltyPoints 90 CustomerTier.premium
    ∧ calculateLoyaltyPoints 90 CustomerTier.premium
      ≤ calculateLoyaltyPoints 90 CustomerTier.vip :=
  ⟨(calculateLoyaltyPoints_tier_monotone 90 (by norm_num)).2.2.2.1,
   (calculateLoyaltyPoints_tier_monotone 90 (by norm_num)).2.2.2.2⟩

/-- Claim C9: on the two-line premium test order with both products
present and the single premium 10% rule at threshold 50, the computation
yields subtotal 100, discount 10, total 90 and 13 loyalty points. -/
theorem computeProcessedOrder_premium_scenario :
    (After.computeProcessedOrder testOrder testCustomer testProducts
        testDiscountRules).subtotal = 100
    ∧ (After.computeProcessedOrder testOrder testCustomer testProducts
        testDiscountRules).discount = 10
    ∧ (After.computeProcessedOrder testOrder testCustomer testProducts
        testDiscountRules).total = 90
    ∧ (After.computeProcessedOrder testOrder testCustomer testProducts
        testDiscountRules).loyaltyPointsEarned = 13 := by
  norm_num [After.computeProcessedOrder, testOrder, testCustomer, testProducts,
    testDiscountRules, calculateLineItemsCore, lineItemsStep, lineItemOf,
    List.lookup, List.foldl, findApplicableDiscount, List.filter, List.find?,
    calculateDiscount, toProcessedOrder, calculateSubtotal,
    calculateLoyaltyPoints, toItemsSummary]

/-- A rule list whose only rule carries a negative discount percentage. -/
def negPercentRules : List DiscountRule :=
  [{ tier := CustomerTier.premium, minPurchase := 0, discountPercent := -10 }]

/-- An order with a negative quantity on its single line. -/
def negQtyOrder : Order :=
  { id := "order-neg"
    customerId := "cust-456"
    items := [{ productId := "prod-1", quantity := -10, pricePerUnit := 25 }]
    createdAt := "2024-01-15" }

/-- Counterexample to claim C5 as stated (quantified over EVERY rule list
and order): with a negative discount percentage the discount is negative,
and with a negative line quantity the discount exceeds the (negative)
subtotal.  The code applies whatever rule percentages and quantities it is
given. -/
theorem computeProcessedOrder_invariants_counterexample :
    ¬ (0 ≤ (After.computeProcessedOrder testOrder testCustomer testProducts
        negPercentRules).discount)
    ∧ ¬ ((After.computeProcessedOrder negQtyOrder testCustomer testProducts
        testDiscountRules).discount
          ≤ (After.computeProcessedOrder negQtyOrder testCustomer testProducts
        testDiscountRules).subtotal) := by
  constructor <;>
    norm_num [After.computeProcessedOrder, testOrder, testCustomer, testProducts,
      negPercentRules, negQtyOrder, testDiscountRules, calculateLineItemsCore,
      lineItemsStep, lineItemOf, List.lookup, List.foldl, findApplicableDiscount,
      List.filter, List.find?, calculateDiscount, toProcessedOrder,
      calculateSubtotal, calculateLoyaltyPoints, toItemsSummary]

/-- Claim C5 (amended): when every line has nonnegative quantity and unit
price and every fetched rule's percentage lies within [0, 100], the
computed `ProcessedOrder` satisfies `total = subtotal - discount`,
`0 ≤ discount` and `discount ≤ subtotal` (the equation
`total = subtotal - discount` needs no hypotheses). -/
theorem computeProcessedOrder_invariants (order : Order) (customer : Customer)
    (products : List (String × Product)) (rules : List DiscountRule)
    (hItems : ∀ oi ∈ order.items, 0 ≤ oi.quantity ∧ 0 ≤ oi.pricePerUnit)
    (hRules : ∀ r ∈ rules, 0 ≤ r.discountPercent ∧ r.discountPercent ≤ 100) :
    (After.computeProcessedOrder order customer products rules).total
        = (After.computeProcessedOrder order customer products rules).subtotal
          - (After.computeProcessedOrder order customer products rules).discount
    ∧ 0 ≤ (After.computeProcessedOrder order customer products rules).discount
    ∧ (After.computeProcessedOrder order customer products rules).discount
        ≤ (After.computeProcessedOrder order customer products rules).subtotal := by
  have hsub : 0 ≤ calculateSubtotal (calculateLineItemsCore order products).1 := by
    rw [calculateSubtotal_eq_sum]
    apply List.sum_nonneg
    intro q hq
    rcases List.mem_map.mp hq with ⟨li, hli, rfl⟩
    rw [calculateLineItemsCore_eq] at hli
    rcases List.mem_filterMap.mp hli with ⟨oi, hoi, hsome⟩
    rcases Option.map_eq_some'.mp hsome with ⟨p, _, rfl⟩
    have hnn := hItems oi hoi
    simpa [lineItemOf] using mul_nonneg hnn.1 hnn.2
  have hpo : After.computeProcessedOrder order customer products rules
      = toProcessedOrder order customer (calculateLineItemsCore order products).1
          (findApplicableDiscount rules customer.tier
            (calculateSubtotal (calculateLineItemsCore order products).1)) := rfl
  rw [hpo, toProcessedOrder]
  refine ⟨rfl, ?_, ?_⟩ <;>
  · cases hrule : findApplicableDiscount rules customer.tier
        (calculateSubtotal (calculateLineItemsCore order products).1) with
    | none => simp [calculateDiscount, hsub]
    | some r =>
        have hmem : r ∈ rules := by
          rw [findApplicableDiscount, find?_filter_eq] at hrule
          exact List.mem_of_find?_eq_some hrule
        have hpct := hRules r hmem
        have h01 : 0 ≤ r.discountPercent / 100 ∧ r.discountPercent / 100 ≤ 1 :=
          ⟨div_nonneg hpct.1 (by norm_num),
           (div_le_one (by norm_num : (0:ℚ) < 100)).mpr hpct.2⟩
        simp only [calculateDiscount]
        first
          | exact mul_nonneg hsub h01.1
          | exact mul_le_of_le_one_right hsub h01.2

/-- Witness for claim C5 (amended) on the premium test scenario. -/
theorem computeProcessedOrder_invariants_witness :
    (After.computeProcessedOrder testOrder testCustomer testProducts
        testDiscountRules).total
      = (After.computeProcessedOrder testOrder testCustomer testProducts
        testDiscountRules).subtotal
        - (After.computeProcessedOrder testOrder testCustomer testProducts
        testDiscountRules).discount
    ∧ 0 ≤ (After.computeProcessedOrder testOrder testCustomer testProducts
        testDiscountRules).discount
    ∧ (After.computeProcessedOrder testOrder testCustomer testProducts
        testDiscountRules).discount
      ≤ (After.computeProcessedOrder testOrder testCustomer testProducts
        testDiscountRules).subtotal :=
  computeProcessedOrder_invariants testOrder testCustomer testProducts
    testDiscountRules
    (by intro oi hoi
        simp only [testOrder, List.mem_cons, List.not_mem_nil, or_false] at hoi
        rcases hoi with rfl | rfl <;> norm_num)
    (by intro r hr
        simp only [testDiscountRules, List.mem_cons, List.not_mem_nil, or_false] at hr
        subst hr
        norm_num)

-- ===========================================================================
-- Claim theorems: the coordinator
-- ===========================================================================

/-- Claim C1: whenever the order and customer reads succeed and both
critical effects succeed on the values the coordinator hands them, the
result is `Right` of the computed `ProcessedOrder` — with NO assumption on
the optional effects (cache, email, analytics, alerting), whose failures
therefore never reach the returned value. -/
theorem processOrder_success_despite_optional_failures
    (env : AppEffects) (orderId : String) (order : Order) (customer : Customer)
    (hOrd : env.orders.getById orderId = some order)
    (hCust : env.customers.getById order.customerId = some customer)
    (hInv : env.products.updateInventory (After.afterInventoryArg env order)
        = Except.ok ())
    (hTot : env.customers.updateTotalPurchases customer.id
        (After.afterProcessedOrder env order customer).total = Except.ok ()) :
    (After.processOrder orderId env).1
      = Except.ok (After.afterProcessedOrder env order customer) := by
  simp only [After.processOrder, hOrd, hCust, hInv, hTot, Except.mapError]

/-- Witness for claim C1: in the environment whose optional effects all
fail (and only those fail), the run still returns the computed processed
order. -/
theorem processOrder_success_despite_optional_failures_witness :
    (After.processOrder "order-123" optionalFailEnv).1
      = Except.ok (After.afterProcessedOrder optionalFailEnv testOrder
          testCustomer) :=
  processOrder_success_despite_optional_failures optionalFailEnv "order-123"
    testOrder testCustomer rfl rfl rfl rfl

/-- Counterexample to claim C2 as stated: when BOTH critical effects fail,
the returned failure carries exactly one cause — the inventory cause — and
not the two-element cause list the claim requires (the customer-purchases
cause is discarded by the coordinator, whose failure channel is a single
string). -/
theorem processOrder_second_cause_dropped :
    After.failureCauses (After.processOrder "order-123" bothCriticalFailEnv).1
      = ["Failed to update inventory: inventory offline"]
    ∧ After.failureCauses (After.processOrder "order-123" bothCriticalFailEnv).1
      ≠ ["Failed to update inventory: inventory offline",
         "Failed to update customer purchases: ledger offline"] := by
  constructor
  · simp [After.processOrder, After.failureCauses, bothCriticalFailEnv,
      testOrder, testCustomer, Except.mapError]
  · simp [After.processOrder, After.failureCauses, bothCriticalFailEnv,
      testOrder, testCustomer, Except.mapError]

/-- Claim C2 (amended): when the fetches succeed and a critical effect
fails, the result is a failure carrying exactly ONE cause — that of the
first failed critical effect in dispatch order (inventory before customer
purchases) — while the other critical effect is still dispatched (both are
attempted; there is no short-circuit on dispatch, only in the reported
cause). -/
theorem processOrder_critical_failure_first_cause
    (env : AppEffects) (orderId : String) (order : Order) (customer : Customer)
    (e : String)
    (hOrd : env.orders.getById orderId = some order)
    (hCust : env.customers.getById order.customerId = some customer) :
    (env.products.updateInventory (After.afterInventoryArg env order)
        = Except.error e →
      After.failureCauses (After.processOrder orderId env).1
          = ["Failed to update inventory: " ++ e]
      ∧ EffectCall.updateTotalPurchases customer.id
          (After.afterProcessedOrder env order customer).total
            ∈ (After.processOrder orderId env).2)
    ∧ (env.products.updateInventory (After.afterInventoryArg env order)
        = Except.ok () →
      env.customers.updateTotalPurchases customer.id
          (After.afterProcessedOrder env order customer).total
            = Except.error e →
      After.failureCauses (After.processOrder orderId env).1
          = ["Failed to update customer purchases: " ++ e]
      ∧ EffectCall.updateInventory (After.afterInventoryArg env order)
            ∈ (After.processOrder orderId env).2) := by
  constructor
  · intro hInv
    simp [After.processOrder, hOrd, hCust, hInv, Except.mapError,
      After.failureCauses]
  · intro hInv hTot
    simp [After.processOrder, hOrd, hCust, hInv, hTot, Except.mapError,
      After.failureCauses]

/-- Witness for claim C2 (amended): with only the inventory update failing
on the test data, the failure carries exactly the inventory cause and the
customer-purchases update was still dispatched. -/
theorem processOrder_critical_failure_first_cause_witness :
    After.failureCauses (After.processOrder "order-123" inventoryFailEnv).1
      = ["Failed to update inventory: " ++ "inventory offline"]
    ∧ EffectCall.updateTotalPurchases "cust-456"
        (After.afterProcessedOrder inventoryFailEnv testOrder testCustomer).total
          ∈ (After.processOrder "order-123" inventoryFailEnv).2 :=
  (processOrder_critical_failure_first_cause inventoryFailEnv "order-123"
    testOrder testCustomer "inventory offline" rfl rfl).1 rfl

/-- Claim C3: an optional effect appears in the invocation trace only if
the order and customer were found and BOTH critical effects succeeded on
the values the coordinator handed them; when a critical effect fails (or a
fetch comes back absent) no optional effect is ever dispatched. -/
theorem processOrder_optional_requires_critical_success
    (env : AppEffects) (orderId : String) (c : EffectCall)
    (hc : c ∈ (After.processOrder orderId env).2)
    (hopt : c.isOptional = true) :
    ∃ order customer,
      env.orders.getById orderId = some order
      ∧ env.customers.getById order.customerId = some customer
      ∧ env.products.updateInventory (After.afterInventoryArg env order)
          = Except.ok ()
      ∧ env.customers.updateTotalPurchases customer.id
          (After.afterProcessedOrder env order customer).total
            = Except.ok () := by
  cases hOrd : env.orders.getById orderId with
  | none =>
      simp only [After.processOrder, hOrd, List.mem_singleton] at hc
      subst hc
      simp [EffectCall.isOptional] at hopt
  | some order =>
    cases hCust : env.customers.getById order.customerId with
    | none =>
        simp only [After.processOrder, hOrd, hCust, List.mem_cons,
          List.not_mem_nil, or_false] at hc
        rcases hc with rfl | rfl <;> simp [EffectCall.isOptional] at hopt
    | some customer =>
      cases hInv : env.products.updateInventory (After.afterInventoryArg env order) with
      | error e =>
          simp only [After.processOrder, hOrd, hCust, hInv, Except.mapError,
            List.mem_cons, List.not_mem_nil, or_false] at hc
          rcases hc with rfl | rfl | rfl | rfl | rfl | rfl <;>
            simp [EffectCall.isOptional] at hopt
      | ok u =>
        cases u
        cases hTot : env.customers.updateTotalPurchases customer.id
            (After.afterProcessedOrder env order customer).total with
        | error e =>
            simp only [After.processOrder, hOrd, hCust, hInv, hTot,
              Except.mapError, List.mem_cons, List.not_mem_nil, or_false] at hc
            rcases hc with rfl | rfl | rfl | rfl | rfl | rfl <;>
              simp [EffectCall.isOptional] at hopt
        | ok v =>
            cases v
            exact ⟨order, customer, rfl, hCust, hInv, hTot⟩

/-- Witness for claim C3: in the all-success environment the cache write
is an optional effect in the trace, and the theorem yields the fetch and
critical-effect successes. -/
theorem processOrder_optional_requires_critical_success_witness :
    ∃ order customer,
      happyEnv.orders.getById "order-123" = some order
      ∧ happyEnv.customers.getById order.customerId = some customer
      ∧ happyEnv.products.updateInventory
          (After.afterInventoryArg happyEnv order) = Except.ok ()
      ∧ happyEnv.customers.updateTotalPurchases customer.id
          (After.afterProcessedOrder happyEnv order customer).total
            = Except.ok () :=
  processOrder_optional_requires_critical_success happyEnv "order-123"
    (EffectCall.cacheSet (buildCacheEntry
      (After.afterProcessedOrder happyEnv testOrder testCustomer)))
    (by simp [After.processOrder, happyEnv, testOrder, testCustomer,
          Except.mapError, After.afterMissingIds, After.fetchedProducts,
          After.productIdsOf, calculateLineItemsCore, lineItemsStep,
          lineItemOf, List.lookup, buildMissingProductAlerts, testProducts,
          List.mem_cons, List.mem_append])
    rfl

/-- Claim C4: an absent order terminates the run with the single cause
`Order <id> not found` and a trace containing only the order read (no
customer, product or rule read and no write); an absent customer after a
found order terminates with the single cause `Customer <id> not found`
and a trace containing only the two reads. -/
theorem processOrder_not_found_short_circuit (env : AppEffects) (orderId : String) :
    (env.orders.getById orderId = none →
        After.processOrder orderId env
          = (Except.error ("Order " ++ orderId ++ " not found"),
             [EffectCall.getOrder orderId]))
    ∧ (∀ order, env.orders.getById orderId = some order →
        env.customers.getById order.customerId = none →
          After.processOrder orderId env
            = (Except.error ("Customer " ++ order.customerId ++ " not found"),
               [EffectCall.getOrder orderId,
                EffectCall.getCustomer order.customerId])) := by
  constructor
  · intro h
    simp [After.processOrder, h]
  · intro order h1 h2
    simp [After.processOrder, h1, h2]

/-- Witness for claim C4 on both halves: an environment with no orders at
all, and one that knows the test order but no customers. -/
theorem processOrder_not_found_short_circuit_witness :
    After.processOrder "missing-order" orderAbsentEnv
      = (Except.error ("Order " ++ "missing-order" ++ " not found"),
         [EffectCall.getOrder "missing-order"])
    ∧ After.processOrder "order-123" customerAbsentEnv
      = (Except.error ("Customer " ++ "cust-456" ++ " not found"),
         [EffectCall.getOrder "order-123",
          EffectCall.getCustomer "cust-456"]) :=
  ⟨(processOrder_not_found_short_circuit orderAbsentEnv "missing-order").1 rfl,
   (processOrder_not_found_short_circuit customerAbsentEnv "order-123").2
     testOrder rfl rfl⟩

/-- The result assembled over an empty line-item list: zero subtotal,
zero discount (whatever rule was found applies to a zero subtotal), zero
total and no item summaries. -/
lemma toProcessedOrder_nil (order : Order) (customer : Customer)
    (rule : Option DiscountRule) :
    (toProcessedOrder order customer [] rule).subtotal = 0
    ∧ (toProcessedOrder order customer [] rule).discount = 0
    ∧ (toProcessedOrder order customer [] rule).total = 0
    ∧ (toProcessedOrder order customer [] rule).itemsSummary = [] := by
  cases rule with
  | none =>
      simp [toProcessedOrder, calculateSubtotal, calculateDiscount, toItemsSummary]
  | some r =>
      simp [toProcessedOrder, calculateSubtotal, calculateDiscount, toItemsSummary]

/-- Claim C10: when the order and customer are found, every ordered
product id is absent from the fetched record, and both critical effects
succeed (on the empty update list and the zero amount the coordinator
derives), the run still returns `Right` of a processed order with zero
subtotal, discount and total and no item summaries, and the trace shows
`updateInventory` invoked with `[]` and `updateTotalPurchases` invoked
with amount `0`. -/
theorem processOrder_all_products_missing
    (env : AppEffects) (orderId : String) (order : Order) (customer : Customer)
    (hOrd : env.orders.getById orderId = some order)
    (hCust : env.customers.getById order.customerId = some customer)
    (hMissing : ∀ oi ∈ order.items,
        (After.fetchedProducts env order).lookup oi.productId = none)
    (hInv : env.products.updateInventory [] = Except.ok ())
    (hTot : env.customers.updateTotalPurchases customer.id 0 = Except.ok ()) :
    ∃ po, (After.processOrder orderId env).1 = Except.ok po
      ∧ po.subtotal = 0 ∧ po.discount = 0 ∧ po.total = 0 ∧ po.itemsSummary = []
      ∧ EffectCall.updateInventory [] ∈ (After.processOrder orderId env).2
      ∧ EffectCall.updateTotalPurchases customer.id 0
          ∈ (After.processOrder orderId env).2 := by
  have hLI : (calculateLineItemsCore order (After.fetchedProducts env order)).1 = [] := by
    rw [calculateLineItemsCore_eq]
    exact List.filterMap_eq_nil_iff.mpr fun oi hoi => by rw [hMissing oi hoi]; rfl
  have hpoEq : After.afterProcessedOrder env order customer
      = toProcessedOrder order customer []
          (findApplicableDiscount env.pricing.getDiscountRules customer.tier
            (List.foldl (fun sum item => sum + item.lineTotal) (0 : ℚ)
              ([] : List LineItem))) := by
    show toProcessedOrder order customer
        (calculateLineItemsCore order (After.fetchedProducts env order)).1
        (findApplicableDiscount env.pricing.getDiscountRules customer.tier
          (List.foldl (fun sum item => sum + item.lineTotal) (0 : ℚ)
            (calculateLineItemsCore order (After.fetchedProducts env order)).1))
        = _
    rw [hLI]
  have hfields := toProcessedOrder_nil order customer
    (findApplicableDiscount env.pricing.getDiscountRules customer.tier
      (List.foldl (fun sum item => sum + item.lineTotal) (0 : ℚ)
        ([] : List LineItem)))
  have hInvArg : After.afterInventoryArg env order = [] := by
    rw [After.afterInventoryArg, After.afterLineItems, hLI]
    rfl
  have hTotArg : (After.afterProcessedOrder env order customer).total = 0 := by
    rw [hpoEq]
    exact hfields.2.2.1
  refine ⟨After.afterProcessedOrder env order customer, ?_,
    by rw [hpoEq]; exact hfields.1,
    by rw [hpoEq]; exact hfields.2.1,
    by rw [hpoEq]; exact hfields.2.2.1,
    by rw [hpoEq]; exact hfields.2.2.2, ?_, ?_⟩
  · simp only [After.processOrder, hOrd, hCust, hInvArg, hTotArg, hInv, hTot,
      Except.mapError]
  · simp only [After.processOrder, hOrd, hCust, hInvArg, hTotArg, hInv, hTot,
      Except.mapError]
    simp [List.mem_append, List.mem_cons]
  · simp only [After.processOrder, hOrd, hCust, hInvArg, hTotArg, hInv, hTot,
      Except.mapError]
    simp [List.mem_append, List.mem_cons]

/-- Witness for claim C10: the environment with an empty product catalog
on the two-line test order. -/
theorem processOrder_all_products_missing_witness :
    ∃ po, (After.processOrder "order-123" emptyProductsEnv).1 = Except.ok po
      ∧ po.subtotal = 0 ∧ po.discount = 0 ∧ po.total = 0 ∧ po.itemsSummary = []
      ∧ EffectCall.updateInventory []
          ∈ (After.processOrder "order-123" emptyProductsEnv).2
      ∧ EffectCall.updateTotalPurchases "cust-456" 0
          ∈ (After.processOrder "order-123" emptyProductsEnv).2 :=
  processOrder_all_products_missing emptyProductsEnv "order-123" testOrder
    testCustomer rfl rfl (fun _ _ => rfl) rfl rfl
